import Mathlib

/-!
Verification development for the local ASR pipeline (`local_asr.py`).

The program is a single-file pipeline: select compute device, load the
recognition model, record microphone audio for a fixed duration, save it as a
16-bit PCM wav file, and transcribe the saved file.  External effects (the
torch/CUDA probe, the sound device, the filesystem write, the whisper engine)
are modelled by an oracle structure `World`; each pipeline function is embedded
as a pure function from the oracle to an event trace plus a result.  `sys.exit`
is modelled by the `Except Nat` error channel carrying the exit code (in the
source, `SystemExit` is not caught by the `except Exception` handler in `main`,
so an inner `sys.exit(1)` really terminates the process with code 1).
Float amplitudes are modelled as exact rationals; the numpy cast
`.astype(np.int16)` truncates toward zero and reduces modulo 2^16.
-/

/-- Observable external actions of the pipeline, in the order they are
performed.  `sdRec` is the audio-device capture request (with the number of
frames requested), `sdWait` the synchronous wait for capture completion,
`writeWav` the filesystem write, `transcribeCall` the invocation of the
recognition engine on a file path. -/
inductive Event : Type
  | torchProbe : Event
  | downloadModel (size : String) : Event
  | whisperLoad (size device computeType : String) : Event
  | sdRec (nframes : Nat) : Event
  | sdWait : Event
  | writeWav (path : String) : Event
  | transcribeCall (path : String) : Event
deriving DecidableEq

/-- Oracle for all effects external to the program: the result of the
torch/CUDA probe (`none` models a failed torch load), whether the capture,
write and model stages succeed, the device's sample stream, the whisper
engine's answer (segment texts, or an error), and the timestamp used in the
output filename. -/
structure World : Type where
  torch : Option Bool
  micOk : Bool
  mic : Nat → ℚ
  saveOk : Bool
  loadOk : Bool
  downloadOk : Bool
  transcribeResult : Except Unit (List (List Char))
  timestamp : String

/-- Command-line arguments after parsing (`argparse` itself is an external
collaborator; `--duration` and `--sample-rate` are ints). -/
structure Args : Type where
  duration : Int
  model : String
  sample_rate : Int
  download_latest : Bool

/-- Embedding of `is_cuda_available` (local_asr.py:66-72): returns the probe
result, and `False` when the `import torch` fails. -/
def is_cuda_available (torchProbe : Option Bool) : Bool :=
  match torchProbe with
  | some avail => avail
  | none => false

/-- Embedding of the device/precision choice in `load_whisper_model`
(local_asr.py:180-187): `("cuda", "float16")` when CUDA is available,
`("cpu", "int8")` otherwise. -/
def select_device_compute (torchProbe : Option Bool) : String × String :=
  if is_cuda_available torchProbe then ("cuda", "float16") else ("cpu", "int8")

/-- Embedding of `load_whisper_model` (local_asr.py:168-203).  Probes CUDA,
optionally downloads the model, then loads it; any failure in the `try` block
is fatal (`sys.exit(1)`).  The returned handle is the chosen
(device, compute_type) pair. -/
def load_whisper_model (w : World) (model_size : String) (download_latest : Bool) :
    List Event × Except Nat (String × String) :=
  let dc := select_device_compute w.torch
  if download_latest then
    if w.downloadOk then
      if w.loadOk then
        ([Event.torchProbe, Event.downloadModel model_size,
          Event.whisperLoad model_size dc.1 dc.2], Except.ok dc)
      else
        ([Event.torchProbe, Event.downloadModel model_size,
          Event.whisperLoad model_size dc.1 dc.2], Except.error 1)
    else
      ([Event.torchProbe, Event.downloadModel model_size], Except.error 1)
  else
    if w.loadOk then
      ([Event.torchProbe, Event.whisperLoad model_size dc.1 dc.2], Except.ok dc)
    else
      ([Event.torchProbe, Event.whisperLoad model_size dc.1 dc.2], Except.error 1)

/-- Embedding of `record_audio` (local_asr.py:96-138).  A non-positive
duration exits with code 1 before any device call; otherwise
`sd.rec(int(duration * sample_rate), ...)` allocates exactly that many frames,
the countdown runs, and `sd.wait()` blocks until capture completes.  A device
error inside the `try` block is fatal (`sys.exit(1)`). -/
def record_audio (w : World) (duration sample_rate : Int) :
    List Event × Except Nat (List ℚ) :=
  if duration ≤ 0 then ([], Except.error 1)
  else
    let n : Nat := (duration * sample_rate).toNat
    if w.micOk then
      ([Event.sdRec n, Event.sdWait], Except.ok ((List.range n).map w.mic))
    else
      ([Event.sdRec n], Except.error 1)

/-- Truncation of a rational toward zero, the rounding mode of a C float-to-int
cast (and hence of numpy's `.astype`). -/
def truncQ (x : ℚ) : Int :=
  if 0 ≤ x then ⌊x⌋ else ⌈x⌉

/-- Reduction of an integer into the signed 16-bit range by taking its low 16
bits in two's complement, which is what numpy's cast to `np.int16` does with an
out-of-range value. -/
def i16ofInt (t : Int) : Int :=
  (t + 32768) % 65536 - 32768

/-- Embedding of the sample conversion on local_asr.py:157,
`(audio_data * 32767).astype(np.int16)`: multiply by 32767, truncate toward
zero, reduce into 16-bit range. -/
def to_int16 (a : ℚ) : Int :=
  i16ofInt (truncQ (a * 32767))

/-- The full converted sample sequence written by `save_audio`. -/
def quantize (audio : List ℚ) : List Int :=
  audio.map to_int16

/-- Embedding of `save_audio` (local_asr.py:140-166): builds the timestamped
filename, converts the samples, writes the wav file; on any exception it
returns `None` instead of terminating. -/
def save_audio (w : World) (audio : List ℚ) (output_dir : String) :
    List Event × Option String :=
  let filename := output_dir ++ "/recording_" ++ w.timestamp ++ ".wav"
  let _stored := quantize audio
  if w.saveOk then ([Event.writeWav filename], some filename)
  else ([Event.writeWav filename], none)

/-- Python's `str.strip()`: remove trailing whitespace, then leading
whitespace (the two removals commute), over an explicit character list. -/
def pythonStrip (l : List Char) : List Char :=
  ((l.reverse.dropWhile Char.isWhitespace).reverse).dropWhile Char.isWhitespace

/-- The segment-collection loop of `transcribe_audio` (local_asr.py:230-232):
`transcript += segment.text + " "` over the whole sequence. -/
def collectSegments (segs : List (List Char)) : List Char :=
  segs.foldl (fun acc t => acc ++ t ++ [' ']) []

/-- Sentinel returned by `transcribe_audio` on any transcription error
(local_asr.py:241). -/
def sentinel : List Char :=
  "Transcription failed. Please check logs.".toList

/-- Transcript assembly of `transcribe_audio`: collect all segments, then
`.strip()` (local_asr.py:230-237). -/
def assembleTranscript (segs : List (List Char)) : List Char :=
  pythonStrip (collectSegments segs)

/-- Embedding of `transcribe_audio` (local_asr.py:205-241): invokes the engine
on the file, assembles the transcript; any exception is absorbed and the
sentinel string is returned, never an exit. -/
def transcribe_audio (w : World) (file : String) : List Event × List Char :=
  ([Event.transcribeCall file],
   match w.transcribeResult with
   | Except.ok segs => assembleTranscript segs
   | Except.error _ => sentinel)

/-- Spec-side description of transcript assembly, written from the spec's
words: "concatenates segment text with single-space separators, and trims
leading/trailing whitespace".  Compared against `assembleTranscript`, which is
the code's loop. -/
def sepJoin : List (List Char) → List Char
  | [] => []
  | [t] => t
  | t :: ts => t ++ [' '] ++ sepJoin ts

/-- Embedding of `main` (local_asr.py:243-280): load model, record, save,
transcribe, in that order; a `None` from `save_audio` aborts with exit code 1
before transcription; reaching the end of `main` is exit code 0.  The result
is the event trace together with the process exit code. -/
def main_run (w : World) (a : Args) : List Event × Nat :=
  let L := load_whisper_model w a.model a.download_latest
  match L.2 with
  | Except.error c => (L.1, c)
  | Except.ok _ =>
    let R := record_audio w a.duration a.sample_rate
    match R.2 with
    | Except.error c => (L.1 ++ R.1, c)
    | Except.ok audio =>
      let S := save_audio w audio "recordings"
      match S.2 with
      | none => (L.1 ++ R.1 ++ S.1, 1)
      | some file =>
        let T := transcribe_audio w file
        (L.1 ++ R.1 ++ S.1 ++ T.1, 0)

/-- Whitespace test used by `pythonStrip` holds at the space character. -/
lemma isWhitespace_space : Char.isWhitespace ' ' = true := by decide

/-- Stripping is unchanged by one extra trailing space. -/
lemma pythonStrip_append_space (s : List Char) :
    pythonStrip (s ++ [' ']) = pythonStrip s := by
  have hrev : (s ++ [' ']).reverse = ' ' :: s.reverse := by
    rw [List.reverse_append]
    rfl
  unfold pythonStrip
  rw [hrev, List.dropWhile_cons_of_pos isWhitespace_space]

/-- Structural-recursion form of the collection loop, used to reason about
the `foldl`. -/
def joinAux : List (List Char) → List Char
  | [] => []
  | t :: ts => t ++ [' '] ++ joinAux ts

/-- The collection fold from an arbitrary accumulator prepends the
accumulator to the recursive join. -/
lemma foldl_collect_eq_joinAux (segs : List (List Char)) :
    ∀ acc : List Char,
      segs.foldl (fun acc t => acc ++ t ++ [' ']) acc = acc ++ joinAux segs := by
  induction segs with
  | nil => intro acc; simp [joinAux]
  | cons t ts ih =>
      intro acc
      rw [List.foldl_cons, ih]
      simp [joinAux, List.append_assoc]

/-- The code's collection loop coincides with the recursive join. -/
lemma collectSegments_eq_joinAux (segs : List (List Char)) :
    collectSegments segs = joinAux segs := by
  unfold collectSegments
  rw [foldl_collect_eq_joinAux]
  rfl

/-- On a non-empty segment list the recursive join is the single-space joined
text followed by one trailing space. -/
lemma joinAux_eq_sepJoin (segs : List (List Char)) (h : segs ≠ []) :
    joinAux segs = sepJoin segs ++ [' '] := by
  induction segs with
  | nil => exact absurd rfl h
  | cons t ts ih =>
      cases ts with
      | nil => simp [joinAux, sepJoin]
      | cons t' ts' =>
          rw [joinAux, ih (by simp)]
          simp [sepJoin, List.append_assoc]

/-- The code's transcript assembly coincides with the spec-side description:
join with single spaces, then trim. -/
lemma assembleTranscript_eq_spec (segs : List (List Char)) :
    assembleTranscript segs = pythonStrip (sepJoin segs) := by
  by_cases h : segs = []
  · subst h; rfl
  · unfold assembleTranscript
    rw [collectSegments_eq_joinAux, joinAux_eq_sepJoin segs h, pythonStrip_append_space]

/-- Truncation of `a * 32767` stays within `[-32767, 32767]` for amplitudes in
`[-1, 1]`. -/
lemma truncQ_bound (a : ℚ) (h1 : -1 ≤ a) (h2 : a ≤ 1) :
    -32767 ≤ truncQ (a * 32767) ∧ truncQ (a * 32767) ≤ 32767 := by
  have hx1 : (-32767 : ℚ) ≤ a * 32767 := by nlinarith
  have hx2 : a * 32767 ≤ (32767 : ℚ) := by nlinarith
  unfold truncQ
  split
  · next h =>
      refine ⟨?_, ?_⟩
      · have h0 : (0 : Int) ≤ ⌊a * 32767⌋ := Int.floor_nonneg.mpr h
        omega
      · have hc : (⌊a * 32767⌋ : ℚ) ≤ 32767 := le_trans (Int.floor_le _) hx2
        exact_mod_cast hc
  · next h =>
      refine ⟨?_, ?_⟩
      · have hc : (-32767 : ℚ) ≤ (⌈a * 32767⌉ : ℚ) := le_trans hx1 (Int.le_ceil _)
        exact_mod_cast hc
      · have h0 : ⌈a * 32767⌉ ≤ (0 : Int) := by
          refine Int.ceil_le.mpr ?_
          push_cast
          exact le_of_lt (not_le.mp h)
        omega

/-- The 16-bit reduction is the identity on values already in the signed
16-bit range. -/
lemma i16ofInt_eq_self (t : Int) (h1 : -32768 ≤ t) (h2 : t ≤ 32767) :
    i16ofInt t = t := by
  unfold i16ofInt
  omega

/-- For in-range amplitudes the conversion is exactly truncation toward zero:
no wrapping occurs. -/
lemma to_int16_inrange (a : ℚ) (h1 : -1 ≤ a) (h2 : a ≤ 1) :
    to_int16 a = truncQ (a * 32767) := by
  obtain ⟨hl, hr⟩ := truncQ_bound a h1 h2
  unfold to_int16
  exact i16ofInt_eq_self _ (by omega) hr

/-- Value of `load_whisper_model` when the download (when requested) and the
load both succeed. -/
lemma load_ok_eq (w : World) (size : String) (dl : Bool)
    (hdl : dl = true → w.downloadOk = true) (hl : w.loadOk = true) :
    load_whisper_model w size dl =
      ([Event.torchProbe] ++ (if dl then [Event.downloadModel size] else [])
        ++ [Event.whisperLoad size (select_device_compute w.torch).1
              (select_device_compute w.torch).2],
       Except.ok (select_device_compute w.torch)) := by
  cases dl with
  | false => simp [load_whisper_model, hl]
  | true => simp [load_whisper_model, hl, hdl rfl]

/-- Value of `record_audio` on a positive duration with a working device. -/
lemma record_ok_eq (w : World) (d sr : Int) (hd : 0 < d) (hm : w.micOk = true) :
    record_audio w d sr =
      ([Event.sdRec (d * sr).toNat, Event.sdWait],
       Except.ok ((List.range (d * sr).toNat).map w.mic)) := by
  simp [record_audio, not_le.mpr hd, hm]

/-- Value of `save_audio` when the wav write succeeds. -/
lemma save_ok_eq (w : World) (audio : List ℚ) (dir : String) (hs : w.saveOk = true) :
    save_audio w audio dir =
      ([Event.writeWav (dir ++ "/recording_" ++ w.timestamp ++ ".wav")],
       some (dir ++ "/recording_" ++ w.timestamp ++ ".wav")) := by
  simp [save_audio, hs]

/-- Success-path trace of `main`: the stages occur in the fixed order probe,
(download), load, capture request, synchronous wait, wav write, transcription
call, and the final exit code is 0. -/
lemma main_run_success_eq (w : World) (a : Args) (hdur : 0 < a.duration)
    (hdl : a.download_latest = true → w.downloadOk = true)
    (hl : w.loadOk = true) (hm : w.micOk = true) (hs : w.saveOk = true) :
    main_run w a =
      ([Event.torchProbe]
        ++ (if a.download_latest then [Event.downloadModel a.model] else [])
        ++ [Event.whisperLoad a.model (select_device_compute w.torch).1
              (select_device_compute w.torch).2,
            Event.sdRec (a.duration * a.sample_rate).toNat, Event.sdWait,
            Event.writeWav ("recordings/recording_" ++ w.timestamp ++ ".wav"),
            Event.transcribeCall ("recordings/recording_" ++ w.timestamp ++ ".wav")],
       0) := by
  rw [main_run, load_ok_eq w a.model a.download_latest hdl hl,
    record_ok_eq w a.duration a.sample_rate hdur hm]
  simp [save_audio, hs, transcribe_audio]

/-- Aborting exit code and absence of transcription whenever the wav write
fails, regardless of every other oracle outcome. -/
lemma main_exit_on_save_failure (w : World) (a : Args) (hs : w.saveOk = false) :
    (main_run w a).2 = 1 ∧ ∀ p, Event.transcribeCall p ∉ (main_run w a).1 := by
  rcases w with ⟨torch, micOk, mic, saveOk, loadOk, downloadOk, tr, ts⟩
  rcases a with ⟨dur, model, sr, dl⟩
  subst hs
  cases dl <;> cases downloadOk <;> cases loadOk <;> cases micOk <;>
    by_cases hd : dur ≤ 0 <;>
    simp [main_run, load_whisper_model, record_audio, save_audio, transcribe_audio, hd]

/-- Any transcription call in the trace implies the save succeeded and the
path is the one the save produced. -/
lemma transcribe_only_after_save (w : World) (a : Args) (p : String)
    (h : Event.transcribeCall p ∈ (main_run w a).1) :
    w.saveOk = true ∧ p = "recordings/recording_" ++ w.timestamp ++ ".wav" := by
  rcases w with ⟨torch, micOk, mic, saveOk, loadOk, downloadOk, tr, ts⟩
  rcases a with ⟨dur, model, sr, dl⟩
  cases saveOk <;> cases dl <;> cases downloadOk <;> cases loadOk <;> cases micOk <;>
    by_cases hd : dur ≤ 0 <;>
    simp_all [main_run, load_whisper_model, record_audio, save_audio, transcribe_audio, hd]

/-- With a non-positive duration the whole pipeline exits with code 1 and the
device is never asked to capture. -/
lemma main_no_capture_on_nonpos_duration (w : World) (a : Args) (ha : a.duration ≤ 0) :
    (main_run w a).2 = 1 ∧ ∀ n, Event.sdRec n ∉ (main_run w a).1 := by
  rcases w with ⟨torch, micOk, mic, saveOk, loadOk, downloadOk, tr, ts⟩
  rcases a with ⟨dur, model, sr, dl⟩
  cases saveOk <;> cases dl <;> cases downloadOk <;> cases loadOk <;> cases micOk <;>
    simp_all [main_run, load_whisper_model, record_audio, save_audio, transcribe_audio]

/-- Concrete oracle in which every stage succeeds and the engine returns one
segment. -/
def goodWorld : World :=
  World.mk none true (fun _ => 0) true true true (Except.ok [['h', 'i']]) "20250101_000000"

/-- Concrete oracle in which the wav write fails. -/
def badSaveWorld : World :=
  World.mk none true (fun _ => 0) false true true (Except.ok []) "20250101_000000"

/-- Concrete oracle in which the transcription stage raises. -/
def errTranscribeWorld : World :=
  World.mk none true (fun _ => 0) true true true (Except.error ()) "20250101_000000"

/-- Concrete argument set matching the CLI defaults. -/
def defaultArgs : Args :=
  Args.mk 60 "base" 16000 false

/-- Concrete argument set with an invalid (zero) duration. -/
def zeroDurArgs : Args :=
  Args.mk 0 "base" 16000 false

/-- Claim C1: if saving the waveform file fails, `transcribe` is never invoked
and the pipeline aborts with a non-zero exit; transcription is only ever
attempted on a path returned by a successful save. -/
theorem save_failure_skips_transcription (w : World) (a : Args) :
    (w.saveOk = false →
      (main_run w a).2 = 1 ∧ ∀ p, Event.transcribeCall p ∉ (main_run w a).1) ∧
    (∀ p, Event.transcribeCall p ∈ (main_run w a).1 →
      w.saveOk = true ∧ ∃ audio, (save_audio w audio "recordings").2 = some p) := by
  constructor
  · intro hs
    exact main_exit_on_save_failure w a hs
  · intro p hp
    obtain ⟨hs, hpe⟩ := transcribe_only_after_save w a p hp
    exact ⟨hs, ⟨[], by simp [save_audio, hs, hpe]⟩⟩

/-- Witness for C1 at a concrete failing-save oracle. -/
theorem save_failure_skips_transcription_witness :
    (main_run badSaveWorld defaultArgs).2 = 1 := by
  exact ((save_failure_skips_transcription badSaveWorld defaultArgs).1 rfl).1

/-- Claim C2 counterexample: the claim "stored sample equals round(a * 32767)"
fails at the concrete captured amplitude 5/6, where the code stores the
truncation 27305 while rounding to nearest gives 27306. -/
theorem sample_rounding_counterexample :
    quantize [(5/6 : ℚ)] ≠ [round ((5/6 : ℚ) * 32767)] := by
  have h1 : quantize [(5/6 : ℚ)] = [27305] := by
    norm_num [quantize, to_int16, truncQ, i16ofInt]
  have h2 : round ((5/6 : ℚ) * 32767) = 27306 := by
    rw [round_eq]
    norm_num
  rw [h1, h2]
  decide

/-- Claim C2 (amended): for every captured amplitude in [-1, 1] the 16-bit
sample stored by `save_audio` equals `a * 32767` truncated toward zero (not
rounded to nearest). -/
theorem stored_samples_truncate (audio : List ℚ)
    (h : ∀ a ∈ audio, -1 ≤ a ∧ a ≤ 1) :
    quantize audio = audio.map (fun a => truncQ (a * 32767)) := by
  unfold quantize
  apply List.map_congr_left
  intro a ha
  exact to_int16_inrange a (h a ha).1 (h a ha).2

/-- Witness for amended C2 at a concrete in-range amplitude. -/
theorem stored_samples_truncate_witness :
    quantize [(5/6 : ℚ)] = [(5/6 : ℚ)].map (fun a => truncQ (a * 32767)) := by
  exact stored_samples_truncate [(5/6 : ℚ)] (by norm_num)

/-- Claim C3: for every amplitude in [-1, 1] the stored sample is `a * 32767`
truncated toward zero; in particular amplitude 1 is stored as 32767 and
amplitude -1 as -32767 (not -32768). -/
theorem quantization_endpoints :
    to_int16 (1 : ℚ) = 32767 ∧ to_int16 (-1 : ℚ) = -32767 ∧
    ∀ a : ℚ, -1 ≤ a → a ≤ 1 → to_int16 a = truncQ (a * 32767) := by
  refine ⟨?_, ?_, fun a h1 h2 => to_int16_inrange a h1 h2⟩
  · norm_num [to_int16, truncQ, i16ofInt]
  · norm_num [to_int16, truncQ, i16ofInt, Int.ceil_neg]

/-- Witness for C3 at the endpoint 1 and at a concrete interior amplitude. -/
theorem quantization_endpoints_witness :
    to_int16 (1 : ℚ) = 32767 ∧ to_int16 (-9/10 : ℚ) = truncQ ((-9/10 : ℚ) * 32767) := by
  exact ⟨quantization_endpoints.1,
    quantization_endpoints.2.2 (-9/10) (by norm_num) (by norm_num)⟩

/-- Claim C10: the conversion does not saturate: at amplitude 3/2 (outside
[-1, 1]) the stored sample is -16386, which is neither 32767 nor -32768 but
the truncated product reduced modulo 2^16. -/
theorem conversion_wraps_out_of_range :
    to_int16 (3/2 : ℚ) = -16386 ∧
    to_int16 (3/2 : ℚ) ≠ 32767 ∧
    to_int16 (3/2 : ℚ) ≠ -32768 ∧
    to_int16 (3/2 : ℚ) % 65536 = truncQ ((3/2 : ℚ) * 32767) % 65536 := by
  have h : to_int16 (3/2 : ℚ) = -16386 := by
    norm_num [to_int16, truncQ, i16ofInt]
  have h2 : truncQ ((3/2 : ℚ) * 32767) = 49150 := by
    norm_num [truncQ]
  rw [h, h2]
  refine ⟨rfl, by decide, by decide, by decide⟩

/-- Claim C4: for every duration ≤ 0 and any sample rate, `record_audio`
fails with exit code 1 before any device access (empty device trace), and at
pipeline level the process exits 1 with no capture request ever issued. -/
theorem record_rejects_nonpositive_duration (w : World) (a : Args)
    (ha : a.duration ≤ 0) :
    record_audio w a.duration a.sample_rate = ([], Except.error 1) ∧
    (main_run w a).2 = 1 ∧ ∀ n, Event.sdRec n ∉ (main_run w a).1 := by
  refine ⟨?_, main_no_capture_on_nonpos_duration w a ha⟩
  simp [record_audio, ha]

/-- Witness for C4 at duration 0. -/
theorem record_rejects_nonpositive_duration_witness :
    record_audio goodWorld zeroDurArgs.duration zeroDurArgs.sample_rate
      = ([], Except.error 1) := by
  exact (record_rejects_nonpositive_duration goodWorld zeroDurArgs (by norm_num [zeroDurArgs])).1

/-- Claim C5: for every duration > 0 and sample rate > 0 (with a working
device) the recording session holds exactly `duration * sample_rate`
samples. -/
theorem record_sample_count (w : World) (d sr : Int) (hd : 0 < d) (hsr : 0 < sr)
    (hm : w.micOk = true) :
    ∃ samples : List ℚ, (record_audio w d sr).2 = Except.ok samples ∧
      (samples.length : Int) = d * sr := by
  refine ⟨(List.range (d * sr).toNat).map w.mic, ?_, ?_⟩
  · rw [record_ok_eq w d sr hd hm]
  · simp only [List.length_map, List.length_range]
    have h0 : 0 ≤ d * sr := mul_nonneg hd.le hsr.le
    omega

/-- Witness for C5: one second at 16000 Hz yields 16000 samples. -/
theorem record_sample_count_witness :
    ∃ samples : List ℚ, (record_audio goodWorld 1 16000).2 = Except.ok samples ∧
      (samples.length : Int) = 1 * 16000 := by
  exact record_sample_count goodWorld 1 16000 (by norm_num) (by norm_num) rfl

/-- Claim C6: device selection is a deterministic total mapping on the probe
result: available gives ("cuda", "float16"); unavailable, or a failed torch
load, gives ("cpu", "int8"); no other outcome is possible. -/
theorem device_selection_deterministic :
    select_device_compute (some true) = ("cuda", "float16") ∧
    select_device_compute (some false) = ("cpu", "int8") ∧
    select_device_compute none = ("cpu", "int8") ∧
    ∀ t : Option Bool, select_device_compute t = ("cuda", "float16") ∨
      select_device_compute t = ("cpu", "int8") := by
  refine ⟨rfl, rfl, rfl, ?_⟩
  intro t
  cases t with
  | none => right; rfl
  | some b =>
      cases b with
      | false => right; rfl
      | true => left; rfl

/-- Claim C7: the pipeline stages happen in the fixed order probe/load,
capture request, synchronous wait, wav write, transcription call, with the
model loaded before recording and the wait confirmed before the save. -/
theorem pipeline_stage_order (w : World) (a : Args) (hdur : 0 < a.duration)
    (hdl : a.download_latest = true → w.downloadOk = true)
    (hl : w.loadOk = true) (hm : w.micOk = true) (hs : w.saveOk = true) :
    main_run w a =
      ([Event.torchProbe]
        ++ (if a.download_latest then [Event.downloadModel a.model] else [])
        ++ [Event.whisperLoad a.model (select_device_compute w.torch).1
              (select_device_compute w.torch).2,
            Event.sdRec (a.duration * a.sample_rate).toNat, Event.sdWait,
            Event.writeWav ("recordings/recording_" ++ w.timestamp ++ ".wav"),
            Event.transcribeCall ("recordings/recording_" ++ w.timestamp ++ ".wav")],
       0) := by
  exact main_run_success_eq w a hdur hdl hl hm hs

/-- Witness for C7 on the all-success oracle with the default arguments. -/
theorem pipeline_stage_order_witness :
    main_run goodWorld defaultArgs =
      ([Event.torchProbe]
        ++ (if defaultArgs.download_latest then [Event.downloadModel defaultArgs.model] else [])
        ++ [Event.whisperLoad defaultArgs.model
              (select_device_compute goodWorld.torch).1
              (select_device_compute goodWorld.torch).2,
            Event.sdRec (defaultArgs.duration * defaultArgs.sample_rate).toNat, Event.sdWait,
            Event.writeWav ("recordings/recording_" ++ goodWorld.timestamp ++ ".wav"),
            Event.transcribeCall ("recordings/recording_" ++ goodWorld.timestamp ++ ".wav")],
       0) := by
  exact pipeline_stage_order goodWorld defaultArgs (by norm_num [defaultArgs])
    (fun h => rfl) rfl rfl rfl

/-- Claim C8: `transcribe_audio` always returns a string: the assembled
transcript on success and the sentinel message on any transcription error;
when the pipeline reaches it, the process still exits 0 and the wav file was
written, whatever the transcription outcome. -/
theorem transcription_errors_are_absorbed (w : World) (a : Args) (file : String) :
    ((w.transcribeResult = Except.error () → (transcribe_audio w file).2 = sentinel) ∧
     ∀ segs, w.transcribeResult = Except.ok segs →
       (transcribe_audio w file).2 = assembleTranscript segs) ∧
    (w.loadOk = true → (a.download_latest = true → w.downloadOk = true) →
      0 < a.duration → w.micOk = true → w.saveOk = true →
      (main_run w a).2 = 0 ∧
      Event.writeWav ("recordings/recording_" ++ w.timestamp ++ ".wav") ∈ (main_run w a).1) := by
  refine ⟨⟨fun h => by simp [transcribe_audio, h], fun segs h => by simp [transcribe_audio, h]⟩, ?_⟩
  intro hl hdl hdur hm hs
  rw [main_run_success_eq w a hdur hdl hl hm hs]
  exact ⟨rfl, by simp⟩

/-- Witness for C8 on an oracle whose transcription stage raises. -/
theorem transcription_errors_are_absorbed_witness :
    (transcribe_audio errTranscribeWorld "f").2 = sentinel ∧
    (main_run errTranscribeWorld defaultArgs).2 = 0 := by
  have h := transcription_errors_are_absorbed errTranscribeWorld defaultArgs "f"
  exact ⟨h.1.1 rfl,
    (h.2 rfl (fun _ => rfl) (by norm_num [defaultArgs]) rfl rfl).1⟩

/-- Claim C9: for every finite sequence of result segments the returned
transcript is the segment texts joined in order with single-space separators
and trimmed of leading and trailing whitespace. -/
theorem transcript_is_space_joined_trim (w : World) (file : String)
    (segs : List (List Char)) (h : w.transcribeResult = Except.ok segs) :
    (transcribe_audio w file).2 = pythonStrip (sepJoin segs) := by
  simp [transcribe_audio, h, assembleTranscript_eq_spec]

/-- Witness for C9 on a concrete one-segment result. -/
theorem transcript_is_space_joined_trim_witness :
    (transcribe_audio goodWorld "f").2 = pythonStrip (sepJoin [['h', 'i']]) := by
  exact transcript_is_space_joined_trim goodWorld "f" [['h', 'i']] rfl
